import Mathlib

/-!
Shallow embedding of the MQTToT real-time transport of `client/mqtt.go`
(package `client`), together with theorems settling the frozen claims about
it.  Bytes are modelled as natural numbers below 256, byte strings as
`List Nat`, Go `uint16`/`int` arithmetic as `Nat` with explicit `% 65536`
where wraparound matters, and fallible operations as `Option`/`Except`.
The network is abstracted by explicit parameters (dial success, write
success, the acknowledgment that eventually arrives on the corresponding
channel, `none` meaning none ever does before the 10-second timeout).
-/

namespace InstaMqtt

/-! ### Remaining-length codec (`writeRemainingLength` / `readRemainingLength`) -/

/-- Loop body of `MQTTClient.writeRemainingLength` (mqtt.go:291-303).  The Go
loop repeatedly emits `length % 128` (with the continuation bit `0x80` set
while the remaining bucket is nonzero) and divides `length` by 128; `fuel`
bounds the iteration count.  Since `length` is a 64-bit Go `int`, the loop
body runs at most 10 times (10 base-128 digits cover 2^70), so a fuel of 10
reproduces the loop exactly on every value an `int` can hold. -/
def writeRemainingLengthAux : Nat → Nat → List Nat
  | 0, _ => []
  | fuel + 1, length =>
    let encodedByte := length % 128
    let length2 := length / 128
    if 0 < length2 then (encodedByte + 128) :: writeRemainingLengthAux fuel length2
    else [encodedByte]

/-- `MQTTClient.writeRemainingLength` (mqtt.go:291-303): base-128
continuation encoding of an MQTT remaining-length value. -/
def writeRemainingLength (length : Nat) : List Nat :=
  writeRemainingLengthAux 10 length

/-- Loop body of `MQTTClient.readRemainingLength` (mqtt.go:356-379).  For a
byte `b < 256`, Go's `b & 127` is `b % 128` and `b & 128 == 0` is `b < 128`.
The Go code adds the digit, multiplies the multiplier by 128, *then* rejects
when `multiplier > 128*128*128`, then checks the continuation bit; the order
of those steps is kept exactly.  `none` models both the io read error on a
truncated stream and the `malformed remaining length` error. -/
def readRemainingLengthAux : List Nat → Nat → Nat → Option Nat
  | [], _, _ => none
  | b :: rest, multiplier, value =>
    let value2 := value + b % 128 * multiplier
    let multiplier2 := multiplier * 128
    if 128 * 128 * 128 < multiplier2 then none
    else if b < 128 then some value2
    else readRemainingLengthAux rest multiplier2 value2

/-- `MQTTClient.readRemainingLength` (mqtt.go:356-379): decodes the
remaining-length field from the front of the byte stream. -/
def readRemainingLength (bs : List Nat) : Option Nat :=
  readRemainingLengthAux bs 1 0

/-- Claim C1 (code bug evidence): the encoder/decoder round-trip holds on
values needing at most three continuation bytes and fails on every value
needing four.  `writeRemainingLength 2097152` is the minimal (4-byte) MQTT
encoding `80 80 80 01`, yet `readRemainingLength` rejects it as malformed,
because the source checks `multiplier > 128*128*128` only after
`multiplier *= 128`, so the guard fires while the fourth byte — still legal
in MQTT, whose maximum is 268435455 — is being consumed. -/
theorem remainingLength_roundtrip_boundary :
    readRemainingLength (writeRemainingLength 0) = some 0 ∧
    readRemainingLength (writeRemainingLength 127) = some 127 ∧
    readRemainingLength (writeRemainingLength 128) = some 128 ∧
    readRemainingLength (writeRemainingLength 16383) = some 16383 ∧
    readRemainingLength (writeRemainingLength 16384) = some 16384 ∧
    readRemainingLength (writeRemainingLength 2097151) = some 2097151 ∧
    writeRemainingLength 2097152 = [128, 128, 128, 1] ∧
    readRemainingLength (writeRemainingLength 2097152) = none ∧
    writeRemainingLength 268435455 = [255, 255, 255, 127] ∧
    readRemainingLength (writeRemainingLength 268435455) = none := by
  decide

/-! ### Packet records and error values -/

/-- `ConnackPacket` (mqtt.go:73-77). -/
structure ConnackPacket where
  sessionPresent : Bool
  returnCode : Nat
  payload : List Nat
deriving Repr, DecidableEq

/-- `SubackPacket` (mqtt.go:80-83). -/
structure SubackPacket where
  packetID : Nat
  returnCodes : List Nat
deriving Repr, DecidableEq

/-- One constructor per distinct `fmt.Errorf` site of mqtt.go that the
claims touch; `connRefused` keeps the CONNACK return code interpolated by
`connection refused, code: %d` (mqtt.go:157). -/
inductive MErr where
  | dialFailed
  | sendConnectFailed
  | connackTimeout
  | connRefused (code : Nat)
  | connackTooShort
  | publishTooShort
  | publishTopicTooShort
  | publishNoPacketID
  | pubackTooShort
  | subackTooShort
  | notConnected
  | writeFailed
  | pubackTimeout
  | pubackMismatch
  | subackTimeout
  | subackMismatch
  | subscriptionFailed
  | closeFailed
deriving Repr, DecidableEq

/-- Observable effects of processing one inbound frame: handler dispatch
(the `go m.messageHandler(...)` call), the PUBACK write for QoS 1, and the
deliveries into the connack/puback/suback channels. -/
inductive MEvent where
  | handlerInvoked (topic : List Nat) (payload : List Nat)
  | pubackSent (pid : Nat)
  | connackReceived (code : Nat)
  | pubackReceived (pid : Nat)
  | subackReceived (pid : Nat) (codes : List Nat)
deriving Repr, DecidableEq

/-- `binary.BigEndian.Uint16` on the first two bytes of a slice. -/
def be16 (l : List Nat) : Nat :=
  l.getD 0 0 * 256 + l.getD 1 0

/-! ### Inbound frame handlers (`processPacket` and its cases) -/

/-- `MQTTClient.handleConnack` (mqtt.go:406-432): a body shorter than two
bytes is the `CONNACK payload too short` error; otherwise the return code
in byte 1 is delivered towards the connack channel. -/
def handleConnack (payload : List Nat) : Except MErr (List MEvent) :=
  if payload.length < 2 then .error .connackTooShort
  else .ok [MEvent.connackReceived (payload.getD 1 0)]

/-- `MQTTClient.handlePuback` (mqtt.go:490-507): a body shorter than two
bytes is the `PUBACK payload too short` error. -/
def handlePuback (payload : List Nat) : Except MErr (List MEvent) :=
  if payload.length < 2 then .error .pubackTooShort
  else .ok [MEvent.pubackReceived (be16 payload)]

/-- `MQTTClient.handleSuback` (mqtt.go:510-531): a body shorter than three
bytes is the `SUBACK payload too short` error; otherwise the packet id and
the per-topic return codes are delivered towards the suback channel. -/
def handleSuback (payload : List Nat) : Except MErr (List MEvent) :=
  if payload.length < 3 then .error .subackTooShort
  else .ok [MEvent.subackReceived (be16 payload) (payload.drop 2)]

/-- `MQTTClient.handlePublish` (mqtt.go:435-487).  `dec` abstracts the zlib
`tryDecompress` call (an external library); a `none` result models a
decompression failure, in which case the raw bytes are forwarded, exactly
as in the source.  `handlerSet` is whether `m.messageHandler != nil`.  For
QoS 1 a PUBACK is emitted before the handler dispatch. -/
def handlePublish (dec : List Nat → Option (List Nat)) (handlerSet : Bool)
    (flags : Nat) (payload : List Nat) : Except MErr (List MEvent) :=
  if payload.length < 2 then .error .publishTooShort
  else
    let qos := flags / 2 % 4
    let topicLen := be16 payload
    if payload.length < 2 + topicLen then .error .publishTopicTooShort
    else if 0 < qos ∧ payload.length < 2 + topicLen + 2 then .error .publishNoPacketID
    else
      let topic := (payload.drop 2).take topicLen
      let packetID := if 0 < qos then be16 (payload.drop (2 + topicLen)) else 0
      let offset := 2 + topicLen + (if 0 < qos then 2 else 0)
      let raw := payload.drop offset
      let msg := (dec raw).getD raw
      let acks := if qos == 1 then [MEvent.pubackSent packetID] else []
      let disp := if handlerSet then [MEvent.handlerInvoked topic msg] else []
      .ok (acks ++ disp)

/-- `MQTTClient.processPacket` (mqtt.go:382-403): dispatch on the control
packet type; PINGRESP and unknown types are ignored without error. -/
def processPacket (dec : List Nat → Option (List Nat)) (handlerSet : Bool)
    (ptype flags : Nat) (body : List Nat) : Except MErr (List MEvent) :=
  if ptype = 2 then handleConnack body
  else if ptype = 3 then handlePublish dec handlerSet flags body
  else if ptype = 4 then handlePuback body
  else if ptype = 9 then handleSuback body
  else .ok []

/-- One already-framed inbound packet, as produced by `readPacket`
(mqtt.go:324-353): type, flags, body. -/
structure Frame where
  ptype : Nat
  flags : Nat
  body : List Nat
deriving Repr, DecidableEq

/-- The reader loop (`readLoop`, mqtt.go:306-321) over a list of inbound
frames: each frame is processed in order and its events are appended; on
the first handler error the loop calls `handleDisconnect` and stops, having
produced no event for the failing frame. -/
def runFrames (dec : List Nat → Option (List Nat)) (handlerSet : Bool) :
    List Frame → List MEvent
  | [] => []
  | f :: fs =>
    match processPacket dec handlerSet f.ptype f.flags f.body with
    | .ok evs => evs ++ runFrames dec handlerSet fs
    | .error _ => []

/-- Is the event a dispatch to the application message handler? -/
def isDispatch : MEvent → Bool
  | .handlerInvoked _ _ => true
  | _ => false

/-- Does the event trace contain a dispatch to the application handler? -/
def hasDispatch (evs : List MEvent) : Bool :=
  evs.any isDispatch

/-- Scans an event trace and reports whether every handler dispatch is
preceded by the receipt of a CONNACK with return code 0. -/
def dispatchGatedAux (connSeen : Bool) : List MEvent → Bool
  | [] => true
  | .handlerInvoked _ _ :: rest => connSeen && dispatchGatedAux connSeen rest
  | .connackReceived c :: rest => dispatchGatedAux (connSeen || c == 0) rest
  | _ :: rest => dispatchGatedAux connSeen rest

/-- The property claimed as an invariant: no dispatch before a successful
CONNACK anywhere in the trace. -/
def dispatchGated (evs : List MEvent) : Bool :=
  dispatchGatedAux false evs

/-! ### Connection state machine (`MQTTClient` lifecycle) -/

/-- The mutable fields of `MQTTClient` (mqtt.go:46-70) that the claims
depend on: the `connected` flag, whether the TLS socket is open, the
packet-identifier counter, whether a message handler is registered, whether
the keepalive ticker was started, and whether `stopChan` was closed. -/
structure MState where
  connected : Bool
  socketOpen : Bool
  packetID : Nat
  handlerSet : Bool
  keepAliveStarted : Bool
  stopChanClosed : Bool
deriving Repr, DecidableEq

/-- The zero value produced by `NewMQTTClient` (mqtt.go:103-113). -/
def initState : MState :=
  { connected := false, socketOpen := false, packetID := 0,
    handlerSet := false, keepAliveStarted := false, stopChanClosed := false }

/-- Externally visible side effects of the lifecycle operations. -/
inductive Action where
  | dial
  | sendConnectFrame
  | sendDisconnectFrame
  | writePacket
  | closeSocket
  | startKeepAlive
deriving Repr, DecidableEq

/-- Result of a lifecycle operation: the post state, the side effects in
order, and the Go return value (`nil` or an error). -/
structure OpResult where
  state : MState
  actions : List Action
  result : Except MErr Unit
deriving Repr

/-- `MQTTClient.nextPacketID` (mqtt.go:793-799): increment the `uint16`
counter, and skip 0 after the wrap.  Returns the new counter value and the
allocated identifier (in the source both are `m.packetID`). -/
def nextPacketID (packetID : Nat) : Nat × Nat :=
  let p := (packetID + 1) % 65536
  if p = 0 then (1, 1) else (p, p)

/-- The identifiers handed out by `n` consecutive `nextPacketID` calls
starting from counter value `packetID`. -/
def pidRun (packetID : Nat) : Nat → List Nat
  | 0 => []
  | n + 1 =>
    let r := nextPacketID packetID
    r.2 :: pidRun r.1 n

/-- `MQTTClient.Connect` (mqtt.go:116-173).  `dialOk` abstracts the
`tls.Dial` outcome, `writeOk` the CONNECT write, and `connack` the packet
the reader delivers on `connackChan` within the 10-second window (`none`
when nothing arrives and the `time.After` branch fires).  When already
connected the source returns `nil` immediately. -/
def connect (s : MState) (dialOk writeOk : Bool)
    (connack : Option ConnackPacket) : OpResult :=
  if s.connected then ⟨s, [], .ok ()⟩
  else if !dialOk then ⟨s, [.dial], .error .dialFailed⟩
  else
    let s1 := { s with socketOpen := true }
    if !writeOk then
      ⟨{ s1 with socketOpen := false }, [.dial, .sendConnectFrame, .closeSocket],
        .error .sendConnectFailed⟩
    else
      match connack with
      | none =>
        ⟨{ s1 with socketOpen := false }, [.dial, .sendConnectFrame, .closeSocket],
          .error .connackTimeout⟩
      | some ca =>
        if ca.returnCode ≠ 0 then
          ⟨{ s1 with socketOpen := false }, [.dial, .sendConnectFrame, .closeSocket],
            .error (.connRefused ca.returnCode)⟩
        else
          ⟨{ s1 with connected := true, keepAliveStarted := true },
            [.dial, .sendConnectFrame, .startKeepAlive], .ok ()⟩

/-- `MQTTClient.Disconnect` (mqtt.go:765-783): a no-op returning `nil` when
not connected; otherwise a best-effort DISCONNECT frame is written (its
error ignored), `stopChan` is closed, the flag is cleared and the socket
close result is returned (`closeOk` abstracts it). -/
def disconnect (s : MState) (closeOk : Bool) : OpResult :=
  if !s.connected then ⟨s, [], .ok ()⟩
  else
    ⟨{ s with connected := false, socketOpen := false, stopChanClosed := true },
      [.sendDisconnectFrame, .closeSocket],
      if closeOk then .ok () else .error .closeFailed⟩

/-- `MQTTClient.handleDisconnect` (mqtt.go:746-762): guarded by the
`connected` flag (so it runs at most once per connection); it clears the
flag and closes the socket, and touches nothing else — in particular it
never writes into `connackChan`, `pubackChan` or `subackChan`. -/
def handleDisconnect (s : MState) : MState :=
  if !s.connected then s
  else { s with connected := false, socketOpen := false }

/-- `MQTTClient.Publish` (mqtt.go:603-664).  `writeOk` abstracts the socket
write, `ack` the packet id the reader delivers on `pubackChan` within the
10-second window (`none` when nothing arrives and the timeout branch
fires).  Not connected fails up front with `not connected`; QoS above 0
allocates a packet id; QoS 1 then waits for the matching PUBACK. -/
def publish (s : MState) (topic payload : List Nat) (qos : Nat)
    (writeOk : Bool) (ack : Option Nat) : OpResult :=
  if !s.connected then ⟨s, [], .error .notConnected⟩
  else
    let pr := if 0 < qos then nextPacketID s.packetID else (s.packetID, 0)
    let s1 := { s with packetID := pr.1 }
    if !writeOk then ⟨s1, [.writePacket], .error .writeFailed⟩
    else if qos == 1 then
      match ack with
      | none => ⟨s1, [.writePacket], .error .pubackTimeout⟩
      | some a =>
        if a ≠ pr.2 then ⟨s1, [.writePacket], .error .pubackMismatch⟩
        else ⟨s1, [.writePacket], .ok ()⟩
    else ⟨s1, [.writePacket], .ok ()⟩

/-- `MQTTClient.Subscribe` (mqtt.go:545-600).  A packet id is allocated
unconditionally (the source never checks `connected` here), the SUBSCRIBE
frame is written, then the call waits on `subackChan` (`sub = none` models
the 10-second timeout).  A mismatched packet id fails; otherwise any
per-topic return code equal to `0x80` fails the whole call with the
`subscription failed` error. -/
def subscribe (s : MState) (topics : List (List Nat)) (writeOk : Bool)
    (sub : Option SubackPacket) : OpResult :=
  let pr := nextPacketID s.packetID
  let s1 := { s with packetID := pr.1 }
  if !writeOk then ⟨s1, [.writePacket], .error .writeFailed⟩
  else
    match sub with
    | none => ⟨s1, [.writePacket], .error .subackTimeout⟩
    | some sb =>
      if sb.packetID ≠ pr.2 then ⟨s1, [.writePacket], .error .subackMismatch⟩
      else if 128 ∈ sb.returnCodes then ⟨s1, [.writePacket], .error .subscriptionFailed⟩
      else ⟨s1, [.writePacket], .ok ()⟩

/-- A connected state with a registered handler, used by the concrete
counterexamples and witnesses below. -/
def sConn : MState :=
  { connected := true, socketOpen := true, packetID := 5,
    handlerSet := true, keepAliveStarted := true, stopChanClosed := false }

/-! ### Claim C2: dispatch is not gated on CONNACK -/

/-- Claim C2 counterexample: on the frame sequence consisting of a single
well-formed QoS-0 PUBLISH (topic `/a`, two payload bytes) received before
any CONNACK, the reader dispatches to the registered handler, so the trace
violates the claimed no-dispatch-before-successful-CONNACK invariant. -/
theorem publish_dispatched_without_connack_cex :
    dispatchGated (runFrames (fun _ => none) true
      [Frame.mk 3 0 [0, 2, 47, 97, 104, 105]]) = false := by
  decide

/-- Claim C2 (amended): a parsable PUBLISH frame is dispatched to the
registered handler unconditionally — `processPacket` takes no connection
or handshake state at all, so dispatch never depends on a CONNACK having
been received. -/
theorem publish_dispatch_needs_no_connack (dec : List Nat → Option (List Nat))
    (flags : Nat) (payload : List Nat)
    (hTopic : 2 + be16 payload ≤ payload.length)
    (hPid : 0 < flags / 2 % 4 → 2 + be16 payload + 2 ≤ payload.length) :
    ∃ evs, processPacket dec true 3 flags payload = .ok evs ∧
      hasDispatch evs = true := by
  have h1 : ¬ payload.length < 2 := by omega
  have h2 : ¬ payload.length < 2 + be16 payload := by omega
  have h3 : ¬ (0 < flags / 2 % 4 ∧ payload.length < 2 + be16 payload + 2) := by
    rintro ⟨hq, hl⟩
    exact absurd hl (by have := hPid hq; omega)
  norm_num [processPacket, handlePublish, if_neg h1, if_neg h2, if_neg h3]
  simp [hasDispatch, isDispatch, List.any_append]

/-- Claim C2 witness: the amended theorem applied to the concrete QoS-0
PUBLISH frame used in the counterexample. -/
theorem publish_dispatch_needs_no_connack_witness :
    ∃ evs, processPacket (fun _ => none) true 3 0 [0, 2, 47, 97, 104, 105] = .ok evs ∧
      hasDispatch evs = true :=
  publish_dispatch_needs_no_connack (fun _ => none) 0 [0, 2, 47, 97, 104, 105]
    (by decide) (by decide)

/-! ### Claim C3: connection loss and outstanding requests -/

/-- Claim C3 counterexample: from a connected state, `handleDisconnect`
only clears the flag and closes the socket, and a QoS-1 publish whose
PUBACK never arrives (as after a connection loss) returns the PUBACK
timeout error — it is not resolved with any connection-lost error (no such
error value exists anywhere in the source). -/
theorem pending_request_times_out_cex :
    handleDisconnect sConn = { sConn with connected := false, socketOpen := false } ∧
    (publish sConn [47, 97] [104] 1 true none).result = .error .pubackTimeout := by
  exact ⟨rfl, rfl⟩

/-- Claim C3 (amended): when the connection is lost, `handleDisconnect`
transitions to Disconnected, closes the socket and is idempotent (it runs
effectively once), but it resolves no Pending Request: a concurrently
awaited QoS-1 publish whose PUBACK never arrives fails with the PUBACK
timeout error after its own 10-second deadline, not with ConnectionLost. -/
theorem handleDisconnect_no_pending_resolution (s : MState)
    (topic payload : List Nat) (h : s.connected = true) :
    (handleDisconnect s).connected = false ∧
    (handleDisconnect s).socketOpen = false ∧
    handleDisconnect (handleDisconnect s) = handleDisconnect s ∧
    (handleDisconnect s).packetID = s.packetID ∧
    (publish s topic payload 1 true none).result = .error .pubackTimeout := by
  unfold handleDisconnect publish
  simp [h]

/-- Claim C3 witness: the amended theorem at the concrete connected state. -/
theorem handleDisconnect_no_pending_resolution_witness :
    (handleDisconnect sConn).connected = false ∧
    (handleDisconnect sConn).socketOpen = false ∧
    handleDisconnect (handleDisconnect sConn) = handleDisconnect sConn ∧
    (handleDisconnect sConn).packetID = sConn.packetID ∧
    (publish sConn [47, 98] [104, 105] 1 true none).result = .error .pubackTimeout :=
  handleDisconnect_no_pending_resolution sConn [47, 98] [104, 105] rfl

/-! ### Claim C4: connect while already connected -/

/-- Claim C4 counterexample: on a connected state, `Connect` returns `nil`
(success), not an error as the claim states. -/
theorem connect_already_connected_cex :
    sConn.connected = true ∧
    (connect sConn true true none).result = .ok () := by
  exact ⟨rfl, rfl⟩

/-- Claim C4 (amended): if the client is already connected, `Connect`
returns immediately with `nil` — no dial, no CONNECT frame, no state
change; only the claimed error return is wrong. -/
theorem connect_already_connected_noop (s : MState) (d w : Bool)
    (c : Option ConnackPacket) (h : s.connected = true) :
    connect s d w c = ⟨s, [], .ok ()⟩ := by
  unfold connect
  simp [h]

/-- Claim C4 witness: the amended theorem at the concrete connected state. -/
theorem connect_already_connected_noop_witness :
    connect sConn false false none = ⟨sConn, [], .ok ()⟩ :=
  connect_already_connected_noop sConn false false none rfl

/-! ### Claim C5: packet-identifier allocation -/

/-- Before the wrap, `nextPacketID` is a plain increment. -/
theorem nextPacketID_no_wrap (p : Nat) (h : p + 1 < 65536) :
    nextPacketID p = (p + 1, p + 1) := by
  unfold nextPacketID
  have hm : (p + 1) % 65536 = p + 1 := Nat.mod_eq_of_lt h
  simp [hm]

/-- Until the counter would pass 65535, consecutive allocations from
counter value `p` hand out exactly `p+1, p+2, ...`. -/
theorem pidRun_eq_range' (n p : Nat) (h : p + n ≤ 65535) :
    pidRun p n = List.range' (p + 1) n := by
  induction n generalizing p with
  | zero => rfl
  | succ n ih =>
    have hlt : p + 1 < 65536 := by omega
    rw [pidRun, nextPacketID_no_wrap p hlt]
    rw [ih (p + 1) (by omega), List.range'_succ (p + 1) n 1]

/-- The allocator never hands out 0, from any counter value. -/
theorem pidRun_zero_free (n p : Nat) : 0 ∉ pidRun p n := by
  induction n generalizing p with
  | zero => simp [pidRun]
  | succ n ih =>
    rw [pidRun]
    intro hmem
    rcases List.mem_cons.1 hmem with hhd | htl
    · revert hhd
      unfold nextPacketID
      by_cases h0 : (p + 1) % 65536 = 0 <;> simp [h0]
      omega
    · exact ih (nextPacketID p).1 htl

/-- Claim C5: consecutive `nextPacketID` allocations are pairwise distinct
until the counter wraps past 65535, the value 0 is never allocated, and an
allocation that returns 65535 is followed by one that returns 1. -/
theorem nextPacketID_spec :
    (∀ p n, p + n ≤ 65535 → (pidRun p n).Nodup) ∧
    (∀ p n, 0 ∉ pidRun p n) ∧
    (∀ p, (nextPacketID p).2 = 65535 → (nextPacketID (nextPacketID p).1).2 = 1) := by
  refine ⟨fun p n h => ?_, fun p n => pidRun_zero_free n p, fun p h => ?_⟩
  · rw [pidRun_eq_range' n p h]
    exact List.nodup_range' (p + 1) n 1 (by decide)
  · have hs : (nextPacketID p).1 = 65535 := by
      revert h
      unfold nextPacketID
      by_cases h0 : (p + 1) % 65536 = 0 <;> simp [h0]
    rw [hs]
    decide

/-- Claim C5 witness: four allocations from a fresh client are the distinct
ids 1,2,3,4; no zero appears in a run crossing the wrap; and 65535 is
followed by 1. -/
theorem nextPacketID_spec_witness :
    (pidRun 0 4).Nodup ∧ 0 ∉ pidRun 65533 5 ∧
    (nextPacketID (nextPacketID 65534).1).2 = 1 :=
  ⟨nextPacketID_spec.1 0 4 (by decide), nextPacketID_spec.2.1 65533 5,
    nextPacketID_spec.2.2 65534 (by decide)⟩

/-! ### Claim C6: short acknowledgment bodies -/

/-- Claim C6: a CONNACK body shorter than 2 bytes, a PUBACK body shorter
than 2 bytes, and a SUBACK body shorter than 3 bytes are each rejected with
that type's too-short error; decoding never succeeds on them (and the Lean
functions are total, so no panic is possible). -/
theorem ack_short_body_errors :
    (∀ p : List Nat, p.length < 2 → handleConnack p = .error .connackTooShort) ∧
    (∀ p : List Nat, p.length < 2 → handlePuback p = .error .pubackTooShort) ∧
    (∀ p : List Nat, p.length < 3 → handleSuback p = .error .subackTooShort) := by
  refine ⟨fun p h => ?_, fun p h => ?_, fun p h => ?_⟩ <;>
    simp [handleConnack, handlePuback, handleSuback, h]

/-- Claim C6 witness: concrete short bodies of each acknowledgment type. -/
theorem ack_short_body_errors_witness :
    handleConnack [1] = .error .connackTooShort ∧
    handlePuback [] = .error .pubackTooShort ∧
    handleSuback [0, 1] = .error .subackTooShort :=
  ⟨ack_short_body_errors.1 [1] (by decide), ack_short_body_errors.2.1 [] (by decide),
    ack_short_body_errors.2.2 [0, 1] (by decide)⟩

/-! ### Claim C7: SUBACK with a 0x80 return code -/

/-- Claim C7: when the SUBACK matching the allocated packet id carries any
per-topic return code `0x80`, the whole `Subscribe` call fails with the
subscription-failure error, even though the frame itself decoded fine. -/
theorem suback_0x80_rejects (s : MState) (topics : List (List Nat))
    (sb : SubackPacket) (hid : sb.packetID = (nextPacketID s.packetID).2)
    (hc : 128 ∈ sb.returnCodes) :
    (subscribe s topics true (some sb)).result = .error .subscriptionFailed := by
  unfold subscribe
  simp [hid, hc]

/-- Claim C7 witness: subscribing to `/a` and `/b` with SUBACK return codes
`[0x01, 0x80]` fails with the subscription-failure error. -/
theorem suback_0x80_rejects_witness :
    (subscribe initState [[47, 97], [47, 98]] true
      (some ⟨1, [1, 128]⟩)).result = .error .subscriptionFailed :=
  suback_0x80_rejects initState [[47, 97], [47, 98]] ⟨1, [1, 128]⟩
    (by decide) (by decide)

/-! ### Claim C8: CONNACK timeout or refusal -/

/-- Claim C8: starting disconnected, if no CONNACK arrives within the
10-second window or the CONNACK carries a nonzero return code, `Connect`
ends with `connected = false`, closes the socket, and returns the timeout
error or the refusal error carrying that exact return code; it never ends
connected. -/
theorem connack_failure_disconnects (s : MState) (c : Option ConnackPacket)
    (hnc : s.connected = false)
    (hfail : c = none ∨ ∃ ca, c = some ca ∧ ca.returnCode ≠ 0) :
    (connect s true true c).state.connected = false ∧
    (connect s true true c).state.socketOpen = false ∧
    Action.closeSocket ∈ (connect s true true c).actions ∧
    ((c = none ∧ (connect s true true c).result = .error .connackTimeout) ∨
      (∃ ca, c = some ca ∧ ca.returnCode ≠ 0 ∧
        (connect s true true c).result = .error (.connRefused ca.returnCode))) := by
  rcases hfail with hnone | ⟨ca, hca, hcode⟩
  · subst hnone
    refine ⟨?_, ?_, ?_, Or.inl ⟨rfl, ?_⟩⟩ <;> simp [connect, hnc]
  · subst hca
    refine ⟨?_, ?_, ?_, Or.inr ⟨ca, rfl, hcode, ?_⟩⟩ <;> simp [connect, hnc, hcode]

/-- Claim C8 witness: a fresh client receiving a CONNACK with return code 5
stays disconnected, closes the socket, and surfaces the code-5 refusal. -/
theorem connack_failure_disconnects_witness :
    (connect initState true true (some ⟨false, 5, []⟩)).state.connected = false ∧
    (connect initState true true (some ⟨false, 5, []⟩)).state.socketOpen = false ∧
    Action.closeSocket ∈ (connect initState true true (some ⟨false, 5, []⟩)).actions ∧
    ((some (ConnackPacket.mk false 5 []) = none ∧
        (connect initState true true (some ⟨false, 5, []⟩)).result = .error .connackTimeout) ∨
      (∃ ca, some (ConnackPacket.mk false 5 []) = some ca ∧ ca.returnCode ≠ 0 ∧
        (connect initState true true (some ⟨false, 5, []⟩)).result =
          .error (.connRefused ca.returnCode))) :=
  connack_failure_disconnects initState (some ⟨false, 5, []⟩) rfl
    (Or.inr ⟨⟨false, 5, []⟩, rfl, by decide⟩)

/-! ### Claim C9: disconnect is idempotent -/

/-- Claim C9: after a first `Disconnect` from a connected state has moved
the client to Disconnected, a second `Disconnect` returns `nil` without
sending a DISCONNECT frame, closing the socket, or changing any state. -/
theorem disconnect_idempotent (s : MState) (c1 c2 : Bool)
    (h : s.connected = true) :
    (disconnect s c1).state.connected = false ∧
    disconnect (disconnect s c1).state c2 = ⟨(disconnect s c1).state, [], .ok ()⟩ := by
  unfold disconnect
  simp [h]

/-- Claim C9 witness: the double disconnect at the concrete connected
state, with the second socket close outcome irrelevant. -/
theorem disconnect_idempotent_witness :
    (disconnect sConn true).state.connected = false ∧
    disconnect (disconnect sConn true).state false =
      ⟨(disconnect sConn true).state, [], .ok ()⟩ :=
  disconnect_idempotent sConn true false rfl

/-! ### Claim C10: publish while not connected -/

/-- Claim C10: for every topic, payload and QoS, `Publish` on a client that
is not connected returns the not-connected error with the state unchanged —
in particular no bytes are written, the packet-identifier counter is
untouched, and no acknowledgment wait is ever entered. -/
theorem publish_not_connected (s : MState) (topic payload : List Nat)
    (qos : Nat) (w : Bool) (ack : Option Nat) (h : s.connected = false) :
    publish s topic payload qos w ack = ⟨s, [], .error .notConnected⟩ := by
  unfold publish
  simp [h]

/-- Claim C10 witness: a QoS-1 publish on a fresh (never connected) client. -/
theorem publish_not_connected_witness :
    publish initState [47, 97] [104, 105] 1 true (some 1) =
      ⟨initState, [], .error .notConnected⟩ :=
  publish_not_connected initState [47, 97] [104, 105] 1 true (some 1) rfl

end InstaMqtt
